import Mathlib

/-!
Shallow embedding of `api/trigger-pipeline.js`: the Vercel handler that
validates the request, dispatches the primary fund-sync workflow, and —
depending on `mode` — either polls the latest workflow run until it is
completed (dispatching the secondary fund-daily-view workflow on a
successful conclusion) or dispatches the secondary workflow immediately.

The remote service's behaviour for one request is an oracle `Env`:
the outcome of the primary dispatch call, the outcome of each 1-based
polling fetch of the runs endpoint, and the outcome of each 0-based
secondary dispatch call. The handler is a pure function of the request
and the oracle; it records the HTTP response together with observable
effect counters (primary/poll/secondary calls, accumulated wait time,
the completed run the loop broke on, and whether the timeout log fired).
-/

namespace FundSync

/-- A workflow run snapshot as read from `workflow_runs[0]` of the runs
query: the `status` string and the `conclusion` (`none` models JSON null). -/
structure JobRun where
  status : String
  conclusion : Option String
deriving DecidableEq, Repr

/-- Outcome of the primary dispatch fetch: `ok` (`response.ok` true),
a non-success HTTP status with the response text, or the call threw. -/
inductive PrimaryOutcome where
  | ok
  | httpError (statusCode : Nat) (body : String)
  | threw (msg : String)
deriving DecidableEq, Repr

/-- Outcome of one fetch of the runs endpoint inside the polling loop:
the response was not ok, the fetch or JSON decode threw, or it returned
the (possibly empty) list of runs. -/
inductive PollOutcome where
  | fetchNotOk
  | threw (msg : String)
  | okRuns (runs : List JobRun)
deriving DecidableEq, Repr

/-- Outcome of one secondary (fund-daily-view) dispatch fetch. -/
inductive SecOutcome where
  | ok
  | notOk (statusCode : Nat)
  | threw (msg : String)
deriving DecidableEq, Repr

/-- Whether a secondary dispatch outcome is a thrown exception. -/
def SecOutcome.isThrow : SecOutcome → Bool
  | .threw _ => true
  | _ => false

/-- The remote service's behaviour for one request: the primary dispatch
outcome, the outcome of the polling fetch at each attempt (1-based), the
outcome of the k-th secondary dispatch call (0-based), and the timestamp
`new Date().toISOString()` would produce. -/
structure Env where
  primary : PrimaryOutcome
  poll : Nat → PollOutcome
  secondary : Nat → SecOutcome
  now : String

/-- The request body: either destructuring `mode`/`today_only` from it
throws (body absent or a throwing getter), or it is an object with an
optional `mode` string and optional `today_only` boolean. -/
inductive ReqBody where
  | throwing (msg : String)
  | obj (mode : Option String) (today_only : Option Bool)
deriving DecidableEq, Repr

/-- An inbound HTTP request: method and body. -/
structure Request where
  method : String
  body : ReqBody
deriving DecidableEq, Repr

/-- The JSON bodies the handler can answer with, carrying the literal
strings from the source. -/
inductive RespBody where
  | err (error : String)
  | errDetails (error : String) (details : String)
  | okBody (success : Bool) (message : String) (mode : String)
      (today_only : Bool) (timestamp : String)
  | errMessage (error : String) (message : String)
deriving DecidableEq, Repr

/-- `validModes` from the source. -/
def validModes : List String := ["link", "market", "position", "all"]

/-- `maxAttempts` from the source: at most 60 polling iterations. -/
def maxAttempts : Nat := 60

/-- The per-iteration wait, milliseconds: `setTimeout(resolve, 30000)`. -/
def intervalMs : Nat := 30000

/-- `today_only.toString()` for a boolean value. -/
def boolString (b : Bool) : String := if b then "true" else "false"

/-- Result of the polling loop: the number of iterations run (each
iteration waits once and fetches once, so this is also the number of
polling fetches), the number of secondary dispatch calls issued inside
the loop, and the completed run the loop broke on, if any. -/
structure LoopResult where
  attempts : Nat
  secCalls : Nat
  observedRun : Option JobRun
deriving DecidableEq, Repr

/-- What one polling iteration decides after its fetch. -/
inductive StepKind where
  | next
  | throwDispatch
  | breakRun (run : JobRun) (dispatched : Bool)
deriving DecidableEq, Repr

/-- One polling iteration of the source loop, after the 30s wait: fetch
the latest runs (attempt `a`). A not-ok response, a thrown fetch, no
runs, or a run that is not `completed` all fall through and the loop
continues. A completed run with conclusion `success` triggers the
secondary dispatch (call number `s`): if that call returns, the loop
breaks; if it throws, the exception is caught by the loop's
`catch` and the loop continues. A completed run with any other
conclusion breaks without dispatching. -/
def stepOf (env : Env) (a s : Nat) : StepKind :=
  match env.poll a with
  | .okRuns runs =>
    match runs.head? with
    | some run =>
      if run.status = "completed" then
        if run.conclusion = some "success" then
          match env.secondary s with
          | .threw _ => .throwDispatch
          | _ => .breakRun run true
        else
          .breakRun run false
      else
        .next
    | none => .next
  | _ => .next

/-- The `while (attempts < maxAttempts)` loop, fuel-recursive: `a` is the
number of attempts already made, `s` the number of secondary dispatch
calls already issued. -/
def runPollLoop (env : Env) : Nat → Nat → Nat → LoopResult
  | 0, a, s => ⟨a, s, none⟩
  | fuel + 1, a, s =>
    match stepOf env (a + 1) s with
    | .next => runPollLoop env fuel (a + 1) s
    | .throwDispatch => runPollLoop env fuel (a + 1) (s + 1)
    | .breakRun run d => ⟨a + 1, if d then s + 1 else s, some run⟩

/-- The handler's observable outcome: HTTP status and JSON body, the
number of primary dispatch calls and the inputs sent with them
(`mode`, `today_only.toString()`), the number of polling fetches and the
total milliseconds waited, the number of secondary dispatch calls, the
completed run the poller broke on (waited modes only), and whether the
timeout log fired (`attempts >= maxAttempts` after the loop). -/
structure HandlerResult where
  status : Nat
  body : RespBody
  primaryCalls : Nat
  primaryInputs : Option (String × String)
  pollCalls : Nat
  waitMs : Nat
  secondaryCalls : Nat
  observedRun : Option JobRun
  timedOut : Bool
deriving DecidableEq, Repr

/-- The handler of `api/trigger-pipeline.js`, line by line: reject
non-POST with 405; destructure the body (a throw goes to the outer catch
and yields 500); default `mode` to `all` and `today_only` to `false`;
reject a mode outside `validModes` with 400; dispatch the primary
workflow (a non-ok response echoes the upstream status with the response
text; a throw yields 500); for modes `all` and `market` run the polling
loop, otherwise dispatch the secondary workflow immediately (its outcome,
thrown or not, is swallowed); finally answer 200. -/
def handler (env : Env) (req : Request) : HandlerResult :=
  if req.method = "POST" then
    match req.body with
    | .throwing msg =>
      { status := 500, body := .errMessage "Internal server error" msg,
        primaryCalls := 0, primaryInputs := none, pollCalls := 0,
        waitMs := 0, secondaryCalls := 0, observedRun := none,
        timedOut := false }
    | .obj m t =>
      let mode := m.getD "all"
      let today_only := t.getD false
      if mode ∈ validModes then
        match env.primary with
        | .threw msg =>
          { status := 500, body := .errMessage "Internal server error" msg,
            primaryCalls := 1,
            primaryInputs := some (mode, boolString today_only),
            pollCalls := 0, waitMs := 0, secondaryCalls := 0,
            observedRun := none, timedOut := false }
        | .httpError s b =>
          { status := s, body := .errDetails "Failed to trigger GitHub Actions" b,
            primaryCalls := 1,
            primaryInputs := some (mode, boolString today_only),
            pollCalls := 0, waitMs := 0, secondaryCalls := 0,
            observedRun := none, timedOut := false }
        | .ok =>
          if mode = "all" ∨ mode = "market" then
            let r := runPollLoop env maxAttempts 0 0
            { status := 200,
              body := .okBody true "Pipeline triggered successfully" mode
                today_only env.now,
              primaryCalls := 1,
              primaryInputs := some (mode, boolString today_only),
              pollCalls := r.attempts, waitMs := r.attempts * intervalMs,
              secondaryCalls := r.secCalls, observedRun := r.observedRun,
              timedOut := decide (maxAttempts ≤ r.attempts) }
          else
            { status := 200,
              body := .okBody true "Pipeline triggered successfully" mode
                today_only env.now,
              primaryCalls := 1,
              primaryInputs := some (mode, boolString today_only),
              pollCalls := 0, waitMs := 0, secondaryCalls := 1,
              observedRun := none, timedOut := false }
      else
        { status := 400,
          body := .err "Invalid mode. Must be one of: link, market, position, all",
          primaryCalls := 0, primaryInputs := none, pollCalls := 0,
          waitMs := 0, secondaryCalls := 0, observedRun := none,
          timedOut := false }
  else
    { status := 405, body := .err "Method not allowed. Use POST.",
      primaryCalls := 0, primaryInputs := none, pollCalls := 0,
      waitMs := 0, secondaryCalls := 0, observedRun := none,
      timedOut := false }

/-- Whether the fetch at attempt `a` yields a latest run with status
`completed`. -/
def pollCompleted (env : Env) (a : Nat) : Bool :=
  match env.poll a with
  | .okRuns runs =>
    match runs.head? with
    | some run => decide (run.status = "completed")
    | none => false
  | _ => false

/-- Whether the fetch at attempt `a` yields a latest run with status
`completed` and conclusion `success`. -/
def pollSuccess (env : Env) (a : Nat) : Bool :=
  match env.poll a with
  | .okRuns runs =>
    match runs.head? with
    | some run =>
      decide (run.status = "completed") && decide (run.conclusion = some "success")
    | none => false
  | _ => false

/-- A completed run with conclusion `success`. -/
def runSucc : JobRun := ⟨"completed", some "success"⟩

/-- A completed run with conclusion `failure`. -/
def runFail : JobRun := ⟨"completed", some "failure"⟩

/-- A POST request with body `{mode: "all", today_only: false}`. -/
def reqAll : Request := ⟨"POST", .obj (some "all") (some false)⟩

/-- A POST request with body `{mode: "market"}`. -/
def reqMarket : Request := ⟨"POST", .obj (some "market") none⟩

/-- An oracle on which the first two polls observe a completed successful
run and the first secondary dispatch call throws (the second returns ok). -/
def envTwice : Env :=
  { primary := .ok,
    poll := fun a => if a ≤ 2 then .okRuns [runSucc] else .fetchNotOk,
    secondary := fun k => if k = 0 then .threw "network error" else .ok,
    now := "2026-01-01T00:00:00.000Z" }

/-- An oracle on which the first poll observes a completed successful run
and every secondary dispatch call throws; later polls return non-ok. -/
def envNoExit : Env :=
  { primary := .ok,
    poll := fun a => if a = 1 then .okRuns [runSucc] else .fetchNotOk,
    secondary := fun _ => .threw "network error",
    now := "2026-01-01T00:00:00.000Z" }

/-- A well-behaved oracle: every poll observes a completed successful run
and every dispatch call returns ok. -/
def envGood : Env :=
  { primary := .ok,
    poll := fun _ => .okRuns [runSucc],
    secondary := fun _ => .ok,
    now := "2026-01-01T00:00:00.000Z" }

/-- An oracle whose runs endpoint always answers with a non-ok status,
so no run is ever observed. -/
def envNeverDone : Env :=
  { primary := .ok,
    poll := fun _ => .fetchNotOk,
    secondary := fun _ => .ok,
    now := "2026-01-01T00:00:00.000Z" }

/-- An oracle on which the first poll returns non-ok and the second
observes a completed run with conclusion `failure`. -/
def envFailSecond : Env :=
  { primary := .ok,
    poll := fun a => if a = 1 then .fetchNotOk
      else if a = 2 then .okRuns [runFail] else .fetchNotOk,
    secondary := fun _ => .ok,
    now := "2026-01-01T00:00:00.000Z" }

/-- An oracle whose primary dispatch is rejected upstream with a 422. -/
def envUpstream422 : Env :=
  { primary := .httpError 422 "Unprocessable Entity",
    poll := fun _ => .okRuns [runSucc],
    secondary := fun _ => .ok,
    now := "2026-01-01T00:00:00.000Z" }

end FundSync

namespace FundSync

theorem runPollLoop_zero (env : Env) (a s : Nat) :
    runPollLoop env 0 a s = ⟨a, s, none⟩ := rfl

theorem runPollLoop_succ_next (env : Env) (fuel a s : Nat)
    (h : stepOf env (a + 1) s = StepKind.next) :
    runPollLoop env (fuel + 1) a s = runPollLoop env fuel (a + 1) s := by
  simp [runPollLoop, h]

theorem runPollLoop_succ_throw (env : Env) (fuel a s : Nat)
    (h : stepOf env (a + 1) s = StepKind.throwDispatch) :
    runPollLoop env (fuel + 1) a s = runPollLoop env fuel (a + 1) (s + 1) := by
  simp [runPollLoop, h]

theorem runPollLoop_succ_break (env : Env) (fuel a s : Nat) (run : JobRun) (d : Bool)
    (h : stepOf env (a + 1) s = StepKind.breakRun run d) :
    runPollLoop env (fuel + 1) a s = ⟨a + 1, if d then s + 1 else s, some run⟩ := by
  simp [runPollLoop, h]

theorem stepOf_next_of_not_completed (env : Env) (a s : Nat)
    (h : pollCompleted env a = false) : stepOf env a s = StepKind.next := by
  cases hp : env.poll a with
  | fetchNotOk => simp [stepOf, hp]
  | threw m => simp [stepOf, hp]
  | okRuns runs =>
    cases hr : runs.head? with
    | none => simp [stepOf, hp, hr]
    | some run =>
      have hs : ¬ run.status = "completed" := by
        simpa [pollCompleted, hp, hr] using h
      simp [stepOf, hp, hr, hs]

theorem stepOf_break_of_completed (env : Env) (a s : Nat)
    (hc : pollCompleted env a = true)
    (hns : (env.secondary s).isThrow = false) :
    ∃ run d, stepOf env a s = StepKind.breakRun run d := by
  cases hp : env.poll a with
  | fetchNotOk => simp [pollCompleted, hp] at hc
  | threw m => simp [pollCompleted, hp] at hc
  | okRuns runs =>
    cases hr : runs.head? with
    | none => simp [pollCompleted, hp, hr] at hc
    | some run =>
      have hs : run.status = "completed" := by
        simpa [pollCompleted, hp, hr] using hc
      by_cases hcon : run.conclusion = some "success"
      · cases he : env.secondary s with
        | threw m => rw [he] at hns; simp [SecOutcome.isThrow] at hns
        | ok => exact ⟨run, true, by simp [stepOf, hp, hr, hs, hcon, he]⟩
        | notOk c => exact ⟨run, true, by simp [stepOf, hp, hr, hs, hcon, he]⟩
      · exact ⟨run, false, by simp [stepOf, hp, hr, hs, hcon]⟩

theorem stepOf_breakRun_inv (env : Env) (a s : Nat) (run : JobRun) (d : Bool)
    (h : stepOf env a s = StepKind.breakRun run d) :
    run.status = "completed" ∧ (d = true ↔ run.conclusion = some "success") := by
  cases hp : env.poll a with
  | fetchNotOk => simp [stepOf, hp] at h
  | threw m => simp [stepOf, hp] at h
  | okRuns runs =>
    cases hr : runs.head? with
    | none => simp [stepOf, hp, hr] at h
    | some r =>
      by_cases hs : r.status = "completed"
      · by_cases hcon : r.conclusion = some "success"
        · cases he : env.secondary s with
          | threw m => simp [stepOf, hp, hr, hs, hcon, he] at h
          | ok =>
            simp only [stepOf, hp, hr, hs, hcon, he, if_pos, if_true] at h
            simp [stepOf, hp, hr, hs, hcon, he] at h
            obtain ⟨h1, h2⟩ := h
            subst h1
            simp [hs, hcon, h2]
          | notOk c =>
            simp [stepOf, hp, hr, hs, hcon, he] at h
            obtain ⟨h1, h2⟩ := h
            subst h1
            simp [hs, hcon, h2]
        · simp [stepOf, hp, hr, hs, hcon] at h
          obtain ⟨h1, h2⟩ := h
          subst h1
          simp [hs, hcon, h2]
      · simp [stepOf, hp, hr, hs] at h

theorem stepOf_throw_inv (env : Env) (a s : Nat)
    (h : stepOf env a s = StepKind.throwDispatch) :
    (env.secondary s).isThrow = true := by
  cases hp : env.poll a with
  | fetchNotOk => simp [stepOf, hp] at h
  | threw m => simp [stepOf, hp] at h
  | okRuns runs =>
    cases hr : runs.head? with
    | none => simp [stepOf, hp, hr] at h
    | some r =>
      by_cases hs : r.status = "completed"
      · by_cases hcon : r.conclusion = some "success"
        · cases he : env.secondary s with
          | threw m => simp [SecOutcome.isThrow, he]
          | ok => simp [stepOf, hp, hr, hs, hcon, he] at h
          | notOk c => simp [stepOf, hp, hr, hs, hcon, he] at h
        · simp [stepOf, hp, hr, hs, hcon] at h
      · simp [stepOf, hp, hr, hs] at h

theorem stepOf_of_not_success (env : Env) (a s : Nat)
    (h : pollSuccess env a = false) :
    stepOf env a s = StepKind.next ∨
      ∃ run, stepOf env a s = StepKind.breakRun run false := by
  cases hp : env.poll a with
  | fetchNotOk => left; simp [stepOf, hp]
  | threw m => left; simp [stepOf, hp]
  | okRuns runs =>
    cases hr : runs.head? with
    | none => left; simp [stepOf, hp, hr]
    | some run =>
      by_cases hs : run.status = "completed"
      · have hcon : ¬ run.conclusion = some "success" := by
          simpa [pollSuccess, hp, hr, hs] using h
        right; exact ⟨run, by simp [stepOf, hp, hr, hs, hcon]⟩
      · left; simp [stepOf, hp, hr, hs]

theorem runPollLoop_attempts_ge (env : Env) :
    ∀ fuel a s, a ≤ (runPollLoop env fuel a s).attempts := by
  intro fuel
  induction fuel with
  | zero => intro a s; simp [runPollLoop_zero]
  | succ n ih =>
    intro a s
    cases hstep : stepOf env (a + 1) s with
    | next =>
      rw [runPollLoop_succ_next env n a s hstep]
      exact le_trans (Nat.le_succ a) (ih (a + 1) s)
    | throwDispatch =>
      rw [runPollLoop_succ_throw env n a s hstep]
      exact le_trans (Nat.le_succ a) (ih (a + 1) (s + 1))
    | breakRun run d =>
      rw [runPollLoop_succ_break env n a s run d hstep]
      exact Nat.le_succ a

theorem runPollLoop_attempts_pos (env : Env) (fuel a s : Nat) (hf : 0 < fuel) :
    a + 1 ≤ (runPollLoop env fuel a s).attempts := by
  obtain ⟨n, rfl⟩ : ∃ n, fuel = n + 1 := ⟨fuel - 1, by omega⟩
  cases hstep : stepOf env (a + 1) s with
  | next =>
    rw [runPollLoop_succ_next env n a s hstep]
    exact runPollLoop_attempts_ge env n (a + 1) s
  | throwDispatch =>
    rw [runPollLoop_succ_throw env n a s hstep]
    exact runPollLoop_attempts_ge env n (a + 1) (s + 1)
  | breakRun run d =>
    rw [runPollLoop_succ_break env n a s run d hstep]

theorem runPollLoop_attempts_le (env : Env) :
    ∀ fuel a s, (runPollLoop env fuel a s).attempts ≤ a + fuel := by
  intro fuel
  induction fuel with
  | zero => intro a s; simp [runPollLoop_zero]
  | succ n ih =>
    intro a s
    cases hstep : stepOf env (a + 1) s with
    | next =>
      rw [runPollLoop_succ_next env n a s hstep]
      have := ih (a + 1) s
      omega
    | throwDispatch =>
      rw [runPollLoop_succ_throw env n a s hstep]
      have := ih (a + 1) (s + 1)
      omega
    | breakRun run d =>
      rw [runPollLoop_succ_break env n a s run d hstep]
      simp

theorem runPollLoop_secCalls_of_no_success (env : Env) :
    ∀ fuel a s, (∀ i, i ≤ a + fuel → pollSuccess env i = false) →
      (runPollLoop env fuel a s).secCalls = s := by
  intro fuel
  induction fuel with
  | zero => intro a s _; simp [runPollLoop_zero]
  | succ n ih =>
    intro a s h
    have h1 : pollSuccess env (a + 1) = false := h (a + 1) (by omega)
    rcases stepOf_of_not_success env (a + 1) s h1 with hstep | ⟨run, hstep⟩
    · rw [runPollLoop_succ_next env n a s hstep]
      exact ih (a + 1) s (fun i hi => h i (by omega))
    · rw [runPollLoop_succ_break env n a s run false hstep]
      simp

theorem runPollLoop_observed_completed (env : Env) :
    ∀ fuel a s run, (runPollLoop env fuel a s).observedRun = some run →
      run.status = "completed" := by
  intro fuel
  induction fuel with
  | zero => intro a s run h; simp [runPollLoop_zero] at h
  | succ n ih =>
    intro a s run h
    cases hstep : stepOf env (a + 1) s with
    | next =>
      rw [runPollLoop_succ_next env n a s hstep] at h
      exact ih (a + 1) s run h
    | throwDispatch =>
      rw [runPollLoop_succ_throw env n a s hstep] at h
      exact ih (a + 1) (s + 1) run h
    | breakRun r d =>
      rw [runPollLoop_succ_break env n a s r d hstep] at h
      simp at h
      subst h
      exact (stepOf_breakRun_inv env (a + 1) s r d hstep).1

theorem runPollLoop_secCalls_noThrow (env : Env)
    (hns : ∀ k, (env.secondary k).isThrow = false) :
    ∀ fuel a s run, (runPollLoop env fuel a s).observedRun = some run →
      (runPollLoop env fuel a s).secCalls =
        (if run.conclusion = some "success" then s + 1 else s) := by
  intro fuel
  induction fuel with
  | zero => intro a s run h; simp [runPollLoop_zero] at h
  | succ n ih =>
    intro a s run h
    cases hstep : stepOf env (a + 1) s with
    | next =>
      rw [runPollLoop_succ_next env n a s hstep] at h ⊢
      exact ih (a + 1) s run h
    | throwDispatch =>
      have := stepOf_throw_inv env (a + 1) s hstep
      rw [hns s] at this
      simp at this
    | breakRun r d =>
      rw [runPollLoop_succ_break env n a s r d hstep] at h ⊢
      simp at h
      subst h
      obtain ⟨-, hd⟩ := stepOf_breakRun_inv env (a + 1) s r d hstep
      by_cases hcon : r.conclusion = some "success"
      · have : d = true := hd.mpr hcon
        simp [this, hcon]
      · have : d = false := by
          cases d with
          | true => exact absurd (hd.mp rfl) hcon
          | false => rfl
        simp [this, hcon]

theorem runPollLoop_first_completed (env : Env)
    (hns : ∀ k, (env.secondary k).isThrow = false) :
    ∀ fuel a s b, a < b → b ≤ a + fuel → pollCompleted env b = true →
      (∀ c, c < b → pollCompleted env c = false) →
      (runPollLoop env fuel a s).attempts = b ∧
        ((runPollLoop env fuel a s).observedRun).isSome = true := by
  intro fuel
  induction fuel with
  | zero => intro a s b hab hb _ _; omega
  | succ n ih =>
    intro a s b hab hb hcb hprev
    by_cases hb1 : b = a + 1
    · subst hb1
      obtain ⟨run, d, hstep⟩ := stepOf_break_of_completed env (a + 1) s hcb (hns s)
      rw [runPollLoop_succ_break env n a s run d hstep]
      simp
    · have hc1 : pollCompleted env (a + 1) = false := hprev (a + 1) (by omega)
      have hstep := stepOf_next_of_not_completed env (a + 1) s hc1
      rw [runPollLoop_succ_next env n a s hstep]
      exact ih (a + 1) s b (by omega) (by omega) hcb hprev

theorem runPollLoop_never_completed (env : Env) :
    ∀ fuel a s, (∀ i, i ≤ a + fuel → pollCompleted env i = false) →
      runPollLoop env fuel a s = ⟨a + fuel, s, none⟩ := by
  intro fuel
  induction fuel with
  | zero => intro a s _; simp [runPollLoop_zero]
  | succ n ih =>
    intro a s h
    have h1 : pollCompleted env (a + 1) = false := h (a + 1) (by omega)
    rw [runPollLoop_succ_next env n a s (stepOf_next_of_not_completed env (a + 1) s h1)]
    rw [ih (a + 1) s (fun i hi => h i (by omega))]
    have : a + 1 + n = a + (n + 1) := by omega
    rw [this]

theorem handler_waited_eq (env : Env) (m : Option String) (t : Option Bool)
    (hm : m.getD "all" = "all" ∨ m.getD "all" = "market")
    (hp : env.primary = PrimaryOutcome.ok) :
    handler env ⟨"POST", ReqBody.obj m t⟩ =
      { status := 200,
        body := RespBody.okBody true "Pipeline triggered successfully"
          (m.getD "all") (t.getD false) env.now,
        primaryCalls := 1,
        primaryInputs := some (m.getD "all", boolString (t.getD false)),
        pollCalls := (runPollLoop env maxAttempts 0 0).attempts,
        waitMs := (runPollLoop env maxAttempts 0 0).attempts * intervalMs,
        secondaryCalls := (runPollLoop env maxAttempts 0 0).secCalls,
        observedRun := (runPollLoop env maxAttempts 0 0).observedRun,
        timedOut := decide (maxAttempts ≤ (runPollLoop env maxAttempts 0 0).attempts) } := by
  rcases hm with h | h <;> simp [handler, h, hp, validModes]

theorem handler_immediate_eq (env : Env) (m : Option String) (t : Option Bool)
    (hm : m.getD "all" ∈ validModes)
    (hw : ¬ (m.getD "all" = "all" ∨ m.getD "all" = "market"))
    (hp : env.primary = PrimaryOutcome.ok) :
    handler env ⟨"POST", ReqBody.obj m t⟩ =
      { status := 200,
        body := RespBody.okBody true "Pipeline triggered successfully"
          (m.getD "all") (t.getD false) env.now,
        primaryCalls := 1,
        primaryInputs := some (m.getD "all", boolString (t.getD false)),
        pollCalls := 0, waitMs := 0, secondaryCalls := 1,
        observedRun := none, timedOut := false } := by
  simp [handler, hm, hw, hp]

/-- Claim C10: for every request whose HTTP method is not POST, the
handler returns 405 with the method-not-allowed error and makes no
remote call of any kind. -/
theorem c10_non_post_rejected (env : Env) (meth : String) (b : ReqBody)
    (h : meth ≠ "POST") :
    handler env ⟨meth, b⟩ =
      { status := 405, body := RespBody.err "Method not allowed. Use POST.",
        primaryCalls := 0, primaryInputs := none, pollCalls := 0,
        waitMs := 0, secondaryCalls := 0, observedRun := none,
        timedOut := false } := by
  simp [handler, h]

/-- Witness for C10 at a concrete GET request. -/
theorem c10_witness :
    handler envGood ⟨"GET", ReqBody.obj none none⟩ =
      { status := 405, body := RespBody.err "Method not allowed. Use POST.",
        primaryCalls := 0, primaryInputs := none, pollCalls := 0,
        waitMs := 0, secondaryCalls := 0, observedRun := none,
        timedOut := false } :=
  c10_non_post_rejected envGood "GET" (ReqBody.obj none none) (by decide)

/-- Claim C9: a POST request whose mode is not in
link/market/position/all returns 400 with the error naming the valid
set, and no remote call (primary dispatch, poll, or secondary dispatch)
is made. -/
theorem c9_invalid_mode_rejected (env : Env) (ms : String) (t : Option Bool)
    (h : ms ∉ validModes) :
    handler env ⟨"POST", ReqBody.obj (some ms) t⟩ =
      { status := 400,
        body := RespBody.err "Invalid mode. Must be one of: link, market, position, all",
        primaryCalls := 0, primaryInputs := none, pollCalls := 0,
        waitMs := 0, secondaryCalls := 0, observedRun := none,
        timedOut := false } := by
  simp [handler, h]

/-- Witness for C9 at the concrete invalid mode string `sync`. -/
theorem c9_witness :
    handler envGood ⟨"POST", ReqBody.obj (some "sync") (some true)⟩ =
      { status := 400,
        body := RespBody.err "Invalid mode. Must be one of: link, market, position, all",
        primaryCalls := 0, primaryInputs := none, pollCalls := 0,
        waitMs := 0, secondaryCalls := 0, observedRun := none,
        timedOut := false } :=
  c9_invalid_mode_rejected envGood "sync" (some true) (by decide)

/-- Claim C8: a POST request whose body destructuring throws is answered
500 with the internal-server-error body carrying the message, not a 400,
and no remote call is made. -/
theorem c8_throwing_body_internal_error (env : Env) (msg : String) :
    handler env ⟨"POST", ReqBody.throwing msg⟩ =
      { status := 500,
        body := RespBody.errMessage "Internal server error" msg,
        primaryCalls := 0, primaryInputs := none, pollCalls := 0,
        waitMs := 0, secondaryCalls := 0, observedRun := none,
        timedOut := false } := by
  simp [handler]

/-- Claim C6: when the primary dispatch returns a non-success HTTP
status, the handler echoes that status with the upstream response text,
and neither the poller nor the secondary dispatch is invoked. -/
theorem c6_upstream_error_halts (env : Env) (m : Option String) (t : Option Bool)
    (s : Nat) (b : String)
    (hmv : m.getD "all" ∈ validModes)
    (hp : env.primary = PrimaryOutcome.httpError s b) :
    handler env ⟨"POST", ReqBody.obj m t⟩ =
      { status := s,
        body := RespBody.errDetails "Failed to trigger GitHub Actions" b,
        primaryCalls := 1,
        primaryInputs := some (m.getD "all", boolString (t.getD false)),
        pollCalls := 0, waitMs := 0, secondaryCalls := 0,
        observedRun := none, timedOut := false } := by
  simp [handler, hmv, hp]

/-- Witness for C6 at a concrete 422 upstream rejection. -/
theorem c6_witness :
    handler envUpstream422 ⟨"POST", ReqBody.obj (some "all") none⟩ =
      { status := 422,
        body := RespBody.errDetails "Failed to trigger GitHub Actions" "Unprocessable Entity",
        primaryCalls := 1, primaryInputs := some ("all", "false"),
        pollCalls := 0, waitMs := 0, secondaryCalls := 0,
        observedRun := none, timedOut := false } :=
  c6_upstream_error_halts envUpstream422 (some "all") none 422 "Unprocessable Entity"
    (by decide) rfl

/-- Claim C5: for mode position (and likewise link), after a successful
primary dispatch the secondary job is dispatched exactly once and no
run-status poll is made. -/
theorem c5_pure_mode_immediate (env : Env) (m : Option String) (t : Option Bool)
    (hm : m = some "position" ∨ m = some "link")
    (hp : env.primary = PrimaryOutcome.ok) :
    (handler env ⟨"POST", ReqBody.obj m t⟩).secondaryCalls = 1 ∧
    (handler env ⟨"POST", ReqBody.obj m t⟩).pollCalls = 0 := by
  rcases hm with h | h <;> subst h <;>
    rw [handler_immediate_eq env _ t (by decide) (by decide) hp] <;>
    exact ⟨rfl, rfl⟩

/-- Witness for C5 at mode position. -/
theorem c5_witness :
    (handler envGood ⟨"POST", ReqBody.obj (some "position") none⟩).secondaryCalls = 1 ∧
    (handler envGood ⟨"POST", ReqBody.obj (some "position") none⟩).pollCalls = 0 :=
  c5_pure_mode_immediate envGood (some "position") none (Or.inl rfl) rfl

/-- Claim C4: every POST request with a valid mode whose primary
dispatch succeeds is answered 200 with success, the mode, the today_only
value and the timestamp, whatever the secondary dispatch or the poller
did; and the primary dispatch inputs are the mode and
`today_only.toString()`, so boolean true is sent as the string true. -/
theorem c4_success_response (env : Env) (m : Option String) (t : Option Bool)
    (hmv : m.getD "all" ∈ validModes)
    (hp : env.primary = PrimaryOutcome.ok) :
    (handler env ⟨"POST", ReqBody.obj m t⟩).status = 200 ∧
    (handler env ⟨"POST", ReqBody.obj m t⟩).body =
      RespBody.okBody true "Pipeline triggered successfully"
        (m.getD "all") (t.getD false) env.now ∧
    (handler env ⟨"POST", ReqBody.obj m t⟩).primaryInputs =
      some (m.getD "all", boolString (t.getD false)) ∧
    boolString true = "true" := by
  by_cases hw : m.getD "all" = "all" ∨ m.getD "all" = "market"
  · rw [handler_waited_eq env m t hw hp]
    exact ⟨rfl, rfl, rfl, rfl⟩
  · rw [handler_immediate_eq env m t hmv hw hp]
    exact ⟨rfl, rfl, rfl, rfl⟩

/-- Witness for C4 at the request of the end-to-end scenario,
mode link with today_only true. -/
theorem c4_witness :
    (handler envGood ⟨"POST", ReqBody.obj (some "link") (some true)⟩).status = 200 ∧
    (handler envGood ⟨"POST", ReqBody.obj (some "link") (some true)⟩).body =
      RespBody.okBody true "Pipeline triggered successfully" "link" true
        "2026-01-01T00:00:00.000Z" ∧
    (handler envGood ⟨"POST", ReqBody.obj (some "link") (some true)⟩).primaryInputs =
      some ("link", boolString true) ∧
    boolString true = "true" :=
  c4_success_response envGood (some "link") (some true) (by decide) rfl

/-- Claim C7: a POST request whose body omits mode entirely is not
rejected: mode defaults to all, the primary dispatch is issued with mode
input all, and when the primary dispatch succeeds at least one poll is
made (the waited strategy applies). -/
theorem c7_missing_mode_defaults_all (env : Env) (t : Option Bool) :
    (handler env ⟨"POST", ReqBody.obj none t⟩).primaryCalls = 1 ∧
    (handler env ⟨"POST", ReqBody.obj none t⟩).primaryInputs =
      some ("all", boolString (t.getD false)) ∧
    (env.primary = PrimaryOutcome.ok →
      1 ≤ (handler env ⟨"POST", ReqBody.obj none t⟩).pollCalls) := by
  have hm : (none : Option String).getD "all" = "all" ∨
      (none : Option String).getD "all" = "market" := Or.inl rfl
  cases hp : env.primary with
  | ok =>
    rw [handler_waited_eq env none t hm hp]
    refine ⟨rfl, rfl, fun _ => ?_⟩
    simpa using runPollLoop_attempts_pos env maxAttempts 0 0 (by decide)
  | httpError s b =>
    refine ⟨?_, ?_, fun hcon => ?_⟩
    · simp [handler, hp, validModes]
    · simp [handler, hp, validModes]
    · simp at hcon
  | threw msg =>
    refine ⟨?_, ?_, fun hcon => ?_⟩
    · simp [handler, hp, validModes]
    · simp [handler, hp, validModes]
    · simp at hcon

/-- Witness for C7 with the mode field absent and today_only true. -/
theorem c7_witness :
    (handler envGood ⟨"POST", ReqBody.obj none (some true)⟩).primaryCalls = 1 ∧
    (handler envGood ⟨"POST", ReqBody.obj none (some true)⟩).primaryInputs =
      some ("all", boolString true) ∧
    (envGood.primary = PrimaryOutcome.ok →
      1 ≤ (handler envGood ⟨"POST", ReqBody.obj none (some true)⟩).pollCalls) :=
  c7_missing_mode_defaults_all envGood (some true)

/-- Claim C2: for waited modes (all, market) with a successful primary
dispatch, if no poll within the 60-attempt budget observes a completed
run with conclusion success — every observed completed run concluded
otherwise, or no completed run was observed at all — then the secondary
job is not dispatched in that request. -/
theorem c2_no_success_no_secondary (env : Env) (m : Option String) (t : Option Bool)
    (hm : m.getD "all" = "all" ∨ m.getD "all" = "market")
    (hp : env.primary = PrimaryOutcome.ok)
    (hns : ∀ i, i ≤ maxAttempts → pollSuccess env i = false) :
    (handler env ⟨"POST", ReqBody.obj m t⟩).secondaryCalls = 0 := by
  rw [handler_waited_eq env m t hm hp]
  show (runPollLoop env maxAttempts 0 0).secCalls = 0
  exact runPollLoop_secCalls_of_no_success env maxAttempts 0 0 (by simpa using hns)

/-- Witness for C2: mode market against an oracle whose runs endpoint
never answers ok, so the budget is exhausted without a completed run. -/
theorem c2_witness :
    (handler envNeverDone ⟨"POST", ReqBody.obj (some "market") none⟩).secondaryCalls = 0 :=
  c2_no_success_no_secondary envNeverDone (some "market") none (Or.inr rfl) rfl
    (by decide)

/-- Claim C1 counterexample: on `envTwice` the request has mode all, the
primary dispatch succeeds, and the poller observes the completed
successful run within budget, yet the secondary dispatch is issued twice:
the first call throws, the exception is swallowed by the loop's catch
before the break is reached, and the next iteration observes the run
again and dispatches again. -/
theorem c1_counterexample_double_dispatch :
    envTwice.primary = PrimaryOutcome.ok ∧
    (handler envTwice reqAll).status = 200 ∧
    (handler envTwice reqAll).observedRun = some runSucc ∧
    (handler envTwice reqAll).secondaryCalls = 2 := by
  decide

/-- Claim C1 (amended): for waited modes with a successful primary
dispatch, if the poller breaks on a run with conclusion success then the
secondary dispatch is issued exactly once, provided no secondary
dispatch call throws; a thrown call is caught by the loop's catch and
the dispatch may be re-issued on later polls within the budget. -/
theorem c1_amended_dispatch_once (env : Env) (m : Option String) (t : Option Bool)
    (run : JobRun)
    (hm : m.getD "all" = "all" ∨ m.getD "all" = "market")
    (hp : env.primary = PrimaryOutcome.ok)
    (hns : ∀ k, (env.secondary k).isThrow = false)
    (hobs : (handler env ⟨"POST", ReqBody.obj m t⟩).observedRun = some run)
    (hsucc : run.conclusion = some "success") :
    (handler env ⟨"POST", ReqBody.obj m t⟩).secondaryCalls = 1 := by
  rw [handler_waited_eq env m t hm hp] at hobs ⊢
  show (runPollLoop env maxAttempts 0 0).secCalls = 1
  have h := runPollLoop_secCalls_noThrow env hns maxAttempts 0 0 run hobs
  simpa [hsucc] using h

/-- Witness for C1 on the well-behaved oracle: one dispatch. -/
theorem c1_witness :
    (handler envGood ⟨"POST", ReqBody.obj (some "all") (some false)⟩).secondaryCalls = 1 :=
  c1_amended_dispatch_once envGood (some "all") (some false) runSucc (Or.inl rfl) rfl
    (fun _ => rfl) (by decide) rfl

/-- Claim C3 counterexample: on `envNoExit` the very first poll observes
a completed run, yet the loop does not exit there: the conclusion is
success, the secondary dispatch throws, the exception is swallowed, and
the loop keeps polling until all 60 attempts are spent. -/
theorem c3_counterexample_completed_without_exit :
    pollCompleted envNoExit 1 = true ∧
    (handler envNoExit reqAll).pollCalls = 60 ∧
    (handler envNoExit reqAll).observedRun = none ∧
    (handler envNoExit reqAll).timedOut = true := by
  decide

/-- Claim C3 (amended): for waited modes with a successful primary
dispatch, the polling loop runs at most maxAttempts (60) iterations,
each iteration waiting the 30s interval before its fetch (total wait =
fetches × interval); the loop breaks only on a run with status
completed; provided no secondary dispatch call throws, it exits at the
first attempt whose fetch observes a completed run, regardless of
conclusion (failed or non-success fetches before it are swallowed and
polling continues); and if no attempt within the budget observes a
completed run, all 60 attempts are spent, no run is observed and the
timeout is reported. -/
theorem c3_amended_poll_loop (env : Env) (m : Option String) (t : Option Bool)
    (hm : m.getD "all" = "all" ∨ m.getD "all" = "market")
    (hp : env.primary = PrimaryOutcome.ok) :
    (handler env ⟨"POST", ReqBody.obj m t⟩).pollCalls ≤ maxAttempts ∧
    (handler env ⟨"POST", ReqBody.obj m t⟩).waitMs =
      (handler env ⟨"POST", ReqBody.obj m t⟩).pollCalls * intervalMs ∧
    (∀ run, (handler env ⟨"POST", ReqBody.obj m t⟩).observedRun = some run →
      run.status = "completed") ∧
    ((∀ k, (env.secondary k).isThrow = false) →
      ∀ b, 0 < b → b ≤ maxAttempts → pollCompleted env b = true →
        (∀ c, c < b → pollCompleted env c = false) →
        (handler env ⟨"POST", ReqBody.obj m t⟩).pollCalls = b ∧
          ((handler env ⟨"POST", ReqBody.obj m t⟩).observedRun).isSome = true) ∧
    ((∀ i, i ≤ maxAttempts → pollCompleted env i = false) →
      (handler env ⟨"POST", ReqBody.obj m t⟩).pollCalls = maxAttempts ∧
        (handler env ⟨"POST", ReqBody.obj m t⟩).observedRun = none ∧
        (handler env ⟨"POST", ReqBody.obj m t⟩).timedOut = true) := by
  rw [handler_waited_eq env m t hm hp]
  refine ⟨?_, rfl, ?_, ?_, ?_⟩
  · show (runPollLoop env maxAttempts 0 0).attempts ≤ maxAttempts
    simpa using runPollLoop_attempts_le env maxAttempts 0 0
  · intro run h
    exact runPollLoop_observed_completed env maxAttempts 0 0 run h
  · intro hns b hb0 hbm hcb hprev
    exact runPollLoop_first_completed env hns maxAttempts 0 0 b (by omega)
      (by simpa using hbm) hcb hprev
  · intro h
    have hnone := runPollLoop_never_completed env maxAttempts 0 0 (by simpa using h)
    refine ⟨?_, ?_, ?_⟩
    · show (runPollLoop env maxAttempts 0 0).attempts = maxAttempts
      rw [hnone]
      simp
    · show (runPollLoop env maxAttempts 0 0).observedRun = none
      rw [hnone]
    · show decide (maxAttempts ≤ (runPollLoop env maxAttempts 0 0).attempts) = true
      rw [hnone]
      decide

/-- Witness for C3 on the oracle whose second poll observes a completed
failed run: exactly two polls are made and a run is observed. -/
theorem c3_witness :
    (handler envFailSecond ⟨"POST", ReqBody.obj (some "market") none⟩).pollCalls = 2 ∧
    ((handler envFailSecond ⟨"POST", ReqBody.obj (some "market") none⟩).observedRun).isSome = true :=
  (c3_amended_poll_loop envFailSecond (some "market") none (Or.inr rfl) rfl).2.2.2.1
    (fun _ => rfl) 2 (by decide) (by decide) (by decide) (by decide)
